import Mathlib

/-!
Shallow embedding of the core of dagnazty/chatgpt-gui:
`rate_limiter.py` (token-bucket rate limiter) and `chatgpt_handler.py`
(token counting, context-window eviction, retrying remote call, and
`send_message` control flow).

Conventions of the embedding:
* Python `int` values are modelled as `ℤ` (token counts can be compared and
  subtracted), `time.time()` timestamps and float arithmetic as `ℚ`.
* The tiktoken encoder is abstracted as `enc : String → ℕ`, giving the length
  of `encoding.encode(value)` for a string; it is an arbitrary deterministic
  function, as the claims only depend on determinism and non-negativity.
* Exceptions are modelled with `Except` / explicit outcome constructors.
-/

/-- A chat message, as built by `chatgpt_handler.py`:
`{"role": ..., "content": ...}`, optionally with a `"name"` key. -/
structure Message where
  role : String
  content : String
  name : Option String := none
deriving Repr, DecidableEq

/-- The key/value fields of the Python message dict, in insertion order
(`role`, `content`, then `name` when present), as iterated by
`message.items()` in `count_tokens` (chatgpt_handler.py line 143). -/
def msgFields (m : Message) : List (String × String) :=
  [("role", m.role), ("content", m.content)] ++
    (match m.name with
     | some v => [("name", v)]
     | none => [])

/-- `tokens_per_message = 4` (chatgpt_handler.py line 138). -/
def tokens_per_message : ℤ := 4

/-- `tokens_per_name = -1` (chatgpt_handler.py line 139). -/
def tokens_per_name : ℤ := -1

/-- `ChatGPTHandler.count_tokens` (chatgpt_handler.py lines 126-151):
for each message add `tokens_per_message`, then for each key/value pair add
the encoded length of the value and `tokens_per_name` when the key is
`"name"`; finally add 2 for reply priming.  The `except` branch of the
source (return 0 on a tokenizer exception) cannot fire here because the
abstract tokenizer `enc` is total. -/
def count_tokens (enc : String → ℕ) (messages : List Message) : ℤ :=
  (messages.foldl
    (fun acc m =>
      (msgFields m).foldl
        (fun a kv =>
          a + (enc kv.2 : ℤ) + (if kv.1 = "name" then tokens_per_name else 0))
        (acc + tokens_per_message))
    0) + 2

/-- Total token contribution of one message inside `count_tokens`. -/
def msgCost (enc : String → ℕ) (m : Message) : ℤ :=
  tokens_per_message + (enc m.role : ℤ) + (enc m.content : ℤ) +
    (match m.name with
     | some v => (enc v : ℤ) + tokens_per_name
     | none => 0)

/-- `ChatGPTHandler.manage_token_limit` (chatgpt_handler.py lines 153-169),
instrumented to also return the evicted messages in eviction order.
The loop: while `count_tokens(messages) + max_response_tokens >
max_context_tokens`, if more than one message remains, `pop(1)` (remove the
message at index 1); otherwise log a warning and stop.  `pop(1)` on
`m0 :: m1 :: rest` yields `m0 :: rest` and removes `m1`; the `len > 1`
test is exactly the two-cons pattern. -/
def manageTokenLimitFuel (enc : String → ℕ) (max_context_tokens max_response_tokens : ℤ) :
    ℕ → List Message → List Message × List Message
  | 0, ms => (ms, [])
  | fuel + 1, ms =>
    if count_tokens enc ms + max_response_tokens ≤ max_context_tokens then
      (ms, [])
    else
      match ms with
      | m0 :: m1 :: rest =>
          let r := manageTokenLimitFuel enc max_context_tokens max_response_tokens fuel (m0 :: rest)
          (r.1, m1 :: r.2)
      | _ => (ms, [])

/-- The loop of `manage_token_limit`, run with fuel `ms.length`.  Each
iteration of the `while True` loop either stops or removes one message, so
`ms.length` iterations always suffice; `manageTokenLimitEv_eq` below shows
this definition satisfies exactly the loop's fixed-point equation. -/
def manageTokenLimitEv (enc : String → ℕ) (max_context_tokens max_response_tokens : ℤ)
    (ms : List Message) : List Message × List Message :=
  manageTokenLimitFuel enc max_context_tokens max_response_tokens ms.length ms

/-- The resulting message list of `manage_token_limit`. -/
def manage_token_limit (enc : String → ℕ) (max_context_tokens max_response_tokens : ℤ)
    (ms : List Message) : List Message :=
  (manageTokenLimitEv enc max_context_tokens max_response_tokens ms).1

/-- The mutable state of `RateLimiter` (rate_limiter.py lines 12-25):
`max_calls`, `period`, the bucket `tokens`, and `last_refill`.  `tokens`
starts as the Python int `max_calls` and is only changed by adding an int
refill and by the `-= 1` decrement, so it stays an integer (`ℤ`);
timestamps and `period` are modelled as `ℚ`. -/
structure RateLimiter where
  max_calls : ℤ
  period : ℚ
  tokens : ℤ
  last_refill : ℚ
deriving Repr, DecidableEq

/-- `RateLimiter.__init__` (rate_limiter.py lines 12-25): stores the
arguments, sets `tokens = max_calls` and `last_refill = time.time()`
(the construction time `now`).  Note: the constructor performs no
validation of `max_calls`. -/
def RateLimiter.init (max_calls : ℤ) (period : ℚ) (now : ℚ) : RateLimiter :=
  { max_calls := max_calls, period := period, tokens := max_calls, last_refill := now }

/-- Outcome of one body of `acquire` (one pass through lines 31-53):
either a token was consumed, or the thread must sleep `wait_time` seconds
and retry, or (when `max_calls = 0`) the expression
`self.period / self.max_calls` raises `ZeroDivisionError`. -/
inductive AcquireOutcome where
  | acquired
  | wait (wait_time : ℚ)
  | divByZero
deriving Repr, DecidableEq

/-- The lazy refill step of `acquire` (rate_limiter.py lines 32-40):
`refill_amount = (elapsed / period) * max_calls`; when `refill_amount ≥ 1`,
add `int(refill_amount)` tokens capped at `max_calls` and update
`last_refill`.  Python's `int()` truncates toward zero, which on the
branch `refill_amount ≥ 1` agrees with the floor `⌊refill_amount⌋`. -/
def RateLimiter.refill (s : RateLimiter) (now : ℚ) : RateLimiter :=
  let elapsed := now - s.last_refill
  let refill_amount : ℚ := elapsed / s.period * (s.max_calls : ℚ)
  if 1 ≤ refill_amount then
    { s with tokens := min s.max_calls (s.tokens + ⌊refill_amount⌋), last_refill := now }
  else s

/-- One attempt of `RateLimiter.acquire` (rate_limiter.py lines 27-53),
from taking the lock to either consuming a token or computing the wait
time before sleeping.  Returns the updated state and the outcome. -/
def RateLimiter.acquireStep (s : RateLimiter) (now : ℚ) : RateLimiter × AcquireOutcome :=
  let s1 := s.refill now
  if 1 ≤ s1.tokens then
    ({ s1 with tokens := s1.tokens - 1 }, .acquired)
  else if s1.max_calls = 0 then
    (s1, .divByZero)
  else
    (s1, .wait (s1.period / (s1.max_calls : ℚ)))

/-- The bucket state after a sequence of acquisition attempts at the given
times (each attempt is one pass through the body of `acquire`). -/
def RateLimiter.runAcquires (s : RateLimiter) (ts : List ℚ) : RateLimiter :=
  ts.foldl (fun a t => (a.acquireStep t).1) s

/-- Full `RateLimiter.acquire` (rate_limiter.py lines 27-53) on a run of
attempt times: on a failed attempt the thread sleeps and then `acquire`
recursively re-invokes itself (line 53: `self.acquire()`).  Returns the
final state together with the self-call depth (number of nested `acquire`
frames), or `none` when the attempt-time trace is exhausted or a
`ZeroDivisionError` is raised. -/
def RateLimiter.acquireFrom (s : RateLimiter) : List ℚ → Option (RateLimiter × ℕ)
  | [] => none
  | t :: ts =>
    match s.acquireStep t with
    | (s1, .acquired) => some (s1, 1)
    | (s1, .wait _) => (s1.acquireFrom ts).map (fun r => (r.1, r.2 + 1))
    | (_, .divByZero) => none

/-- The token-bucket invariant: `0 ≤ tokens ≤ capacity` where the capacity
is `max_calls`. -/
def RLInv (s : RateLimiter) : Prop :=
  0 ≤ s.tokens ∧ s.tokens ≤ s.max_calls

instance (s : RateLimiter) : Decidable (RLInv s) := by
  unfold RLInv; infer_instance

/-- A state in which every attempt at time 0 fails: `max_calls = 1`,
`period = 1`, no token in the bucket, `last_refill = 0`.  This is the
bucket state right after `RateLimiter(1, 1)` has served one call at
time 0. -/
def rlStarved : RateLimiter :=
  { max_calls := 1, period := 1, tokens := 0, last_refill := 0 }

/-- The `openai.error` exception types relevant to `call_openai_api` and
`send_message`. -/
inductive OpenAIErr where
  | apiError
  | timeout
  | tryAgain
  | serviceUnavailableError
  | rateLimitError
  | authenticationError
  | invalidRequestError
  | otherError
deriving Repr, DecidableEq

/-- The retry classification of the `@retry` decorator
(chatgpt_handler.py lines 213-224): `retry_if_exception_type((APIError,
Timeout, TryAgain, ServiceUnavailableError, RateLimitError))`.  Every
other exception type is not retried. -/
def isRetryable : OpenAIErr → Bool
  | .apiError => true
  | .timeout => true
  | .tryAgain => true
  | .serviceUnavailableError => true
  | .rateLimitError => true
  | .authenticationError => false
  | .invalidRequestError => false
  | .otherError => false

/-- `stop_after_attempt(5)` (chatgpt_handler.py line 222). -/
def stopAfterAttempt : ℕ := 5

/-- The tenacity retry loop around `call_openai_api`: `outcomes k` is the
result of the `k`-th invocation (0-based) of the wrapped function, `fuel`
the number of attempts still allowed.  On success return the result; on a
non-retryable exception re-raise at once; on a retryable exception re-raise
if this was the last allowed attempt (`reraise=True`), otherwise sleep per
`wait_exponential` (time is irrelevant to the result) and try again.
Returns the final result and the total number of invocations. -/
def callWithRetryGo (outcomes : ℕ → Except OpenAIErr String) :
    ℕ → ℕ → Except OpenAIErr String × ℕ
  | 0, k => (.error .otherError, k)
  | fuel + 1, k =>
    match outcomes k with
    | .ok res => (.ok res, k + 1)
    | .error e =>
        if isRetryable e = false then (.error e, k + 1)
        else if fuel = 0 then (.error e, k + 1)
        else callWithRetryGo outcomes fuel (k + 1)

/-- `ChatGPTHandler.call_openai_api` (chatgpt_handler.py lines 213-237):
the remote invocation wrapped in the tenacity retry policy with
`stop_after_attempt(5)` and `reraise=True`. -/
def call_openai_api (outcomes : ℕ → Except OpenAIErr String) :
    Except OpenAIErr String × ℕ :=
  callWithRetryGo outcomes stopAfterAttempt 0

/-! ## send_message (chatgpt_handler.py lines 239-294) -/

/-- Python `str.isspace` / the whitespace stripped by `str.strip()`, for
the ASCII whitespace characters (exotic Unicode space characters are not
modelled). -/
def pyIsSpace (c : Char) : Bool :=
  c == ' ' || c == '\t' || c == '\n' || c == '\r' || c == '\x0b' || c == '\x0c'

/-- Python `str.strip()`: drop leading and trailing whitespace. -/
def pyStrip (s : String) : String :=
  String.mk (((s.toList.dropWhile pyIsSpace).reverse.dropWhile pyIsSpace).reverse)

/-- Observable steps of one `send_message` call, in execution order:
blocking on `RateLimiter.acquire` (line 254), appending the user message
(line 257), trimming via `manage_token_limit` (line 262), invoking
`call_openai_api` (line 265), appending the assistant reply (line 272). -/
inductive SendEvent where
  | rlAcquire
  | appendUser
  | trimBudget
  | apiCall
  | appendAssistant
deriving Repr, DecidableEq

/-- The outcome of the (already retried) `call_openai_api` invocation as
observed by `send_message`: a response whose first choice yields `answer`,
a response without choices, or one of the caught exception classes
(chatgpt_handler.py lines 267-294). -/
inductive ApiOutcome where
  | success (answer : String)
  | noChoices
  | authenticationError (msg : String)
  | rateLimitError (msg : String)
  | openAIError (msg : String)
  | unexpectedError (msg : String)
deriving Repr, DecidableEq

/-- The parts of `ChatGPTHandler` state that `send_message` reads or
writes: `session["messages"]`, the token limits, and `session_changed`. -/
structure ChatGPTHandler where
  messages : List Message
  max_context_tokens : ℤ
  max_response_tokens : ℤ
  session_changed : Bool
deriving Repr, DecidableEq

/-- `ChatGPTHandler.send_message` (chatgpt_handler.py lines 239-294),
with the third component recording the order in which the source performs
the observable steps.  The source: if `not user_input.strip()` return the
warning (lines 249-251); `self.rate_limiter.acquire()` (line 254); append
the user message (line 257); `self.manage_token_limit()` (line 262);
`self.call_openai_api()` (line 265); on a response with choices, append
the stripped assistant answer (line 272) and return it; otherwise return
the matching warning/error string (lines 280-294). -/
def send_message (enc : String → ℕ) (st : ChatGPTHandler) (user_input : String)
    (api : ApiOutcome) : ChatGPTHandler × String × List SendEvent :=
  if pyStrip user_input = "" then
    (st, "⚠️ Please provide a valid input.", [])
  else
    let st1 : ChatGPTHandler :=
      { st with
          messages := st.messages ++ [{ role := "user", content := user_input }],
          session_changed := true }
    let trimmed := manageTokenLimitEv enc st1.max_context_tokens st1.max_response_tokens
      st1.messages
    let st2 : ChatGPTHandler :=
      { st1 with
          messages := trimmed.1,
          session_changed := st1.session_changed || !trimmed.2.isEmpty }
    match api with
    | .success answer =>
        let ans := pyStrip answer
        ({ st2 with
             messages := st2.messages ++ [{ role := "assistant", content := ans }],
             session_changed := true },
         ans,
         [.rlAcquire, .appendUser, .trimBudget, .apiCall, .appendAssistant])
    | .noChoices =>
        (st2, "⚠️ No response received from the assistant.",
         [.rlAcquire, .appendUser, .trimBudget, .apiCall])
    | .authenticationError _ =>
        (st2, "❌ Authentication error: Check your API key.",
         [.rlAcquire, .appendUser, .trimBudget, .apiCall])
    | .rateLimitError _ =>
        (st2, "⚠️ Rate limit exceeded. Please try again later.",
         [.rlAcquire, .appendUser, .trimBudget, .apiCall])
    | .openAIError m =>
        (st2, "❌ OpenAI API error: " ++ m,
         [.rlAcquire, .appendUser, .trimBudget, .apiCall])
    | .unexpectedError m =>
        (st2, "❌ An unexpected error occurred: " ++ m,
         [.rlAcquire, .appendUser, .trimBudget, .apiCall])

/-- Modelled from the spec (§2): "Control flow per outgoing message:
caller appends a user message to the session → ContextWindowManager trims
the session to fit the budget → RateLimiter.acquire() blocks until a slot
is free → RetryingCaller invokes the remote capability, retrying per
policy → on success the assistant reply is appended to the session." -/
def specSendOrder : List SendEvent :=
  [.appendUser, .trimBudget, .rlAcquire, .apiCall, .appendAssistant]

/-! ## Concrete fixtures used by counterexamples and witnesses -/

/-- A leading system message, as appended in `__init__`
(chatgpt_handler.py line 91). -/
def mSys : Message := { role := "system", content := "S" }

/-- A user message, as appended by `send_message`
(chatgpt_handler.py line 257). -/
def mUser : Message := { role := "user", content := "hello" }

/-- A handler state with an empty session and a budget large enough that
`manage_token_limit` evicts nothing. -/
def hSt0 : ChatGPTHandler :=
  { messages := [], max_context_tokens := 1000, max_response_tokens := 0,
    session_changed := false }

/-! ## Helper lemmas -/

lemma innerFold_eq (enc : String → ℕ) (m : Message) (acc : ℤ) :
    (msgFields m).foldl
      (fun a kv =>
        a + (enc kv.2 : ℤ) + (if kv.1 = "name" then tokens_per_name else 0))
      (acc + tokens_per_message) = acc + msgCost enc m := by
  cases h : m.name with
  | none =>
      simp [msgFields, msgCost, h, tokens_per_message, tokens_per_name]
      ring
  | some v =>
      simp [msgFields, msgCost, h, tokens_per_message, tokens_per_name]
      ring

lemma count_tokens_cons (enc : String → ℕ) (m : Message) (ms : List Message) :
    count_tokens enc (m :: ms) = msgCost enc m + count_tokens enc ms := by
  unfold count_tokens
  rw [List.foldl_cons, innerFold_eq]
  have key : ∀ (acc : ℤ) (l : List Message),
      l.foldl
        (fun acc m =>
          (msgFields m).foldl
            (fun a kv =>
              a + (enc kv.2 : ℤ) +
                (if kv.1 = "name" then tokens_per_name else 0))
            (acc + tokens_per_message))
        acc = acc +
          l.foldl
            (fun acc m =>
              (msgFields m).foldl
                (fun a kv =>
                  a + (enc kv.2 : ℤ) +
                    (if kv.1 = "name" then tokens_per_name else 0))
                (acc + tokens_per_message))
            0 := by
    intro acc l
    induction l generalizing acc with
    | nil => simp
    | cons x xs ih =>
        rw [List.foldl_cons, List.foldl_cons, innerFold_eq, innerFold_eq,
          ih (0 + msgCost enc x), ih (acc + msgCost enc x)]
        ring
  rw [key (0 + msgCost enc m)]
  ring

lemma msgCost_nonneg (enc : String → ℕ) (m : Message) : 0 ≤ msgCost enc m := by
  unfold msgCost tokens_per_message tokens_per_name
  cases m.name <;> simp <;> omega

lemma count_tokens_append_singleton (enc : String → ℕ) (ms : List Message)
    (m : Message) :
    count_tokens enc (ms ++ [m]) = count_tokens enc ms + msgCost enc m := by
  induction ms with
  | nil => simp [count_tokens_cons]; unfold count_tokens; simp; ring
  | cons x xs ih =>
      rw [List.cons_append, count_tokens_cons, ih, count_tokens_cons]
      ring

lemma manageTokenLimitEv_eq (enc : String → ℕ) (c r : ℤ) (ms : List Message) :
    manageTokenLimitEv enc c r ms =
      if count_tokens enc ms + r ≤ c then (ms, [])
      else
        match ms with
        | m0 :: m1 :: rest =>
            let x := manageTokenLimitEv enc c r (m0 :: rest)
            (x.1, m1 :: x.2)
        | _ => (ms, []) := by
  match ms with
  | [] => simp [manageTokenLimitEv, manageTokenLimitFuel]
  | [m] => rfl
  | m0 :: m1 :: rest => rfl

/-- After the loop, either the budget inequality holds or at most one
message remains (the "cannot remove more messages" warning branch). -/
lemma manage_post (enc : String → ℕ) (c r : ℤ) (ms : List Message) :
    count_tokens enc (manage_token_limit enc c r ms) + r ≤ c ∨
      (manage_token_limit enc c r ms).length ≤ 1 := by
  unfold manage_token_limit
  generalize hn : ms.length = n
  induction n using Nat.strong_induction_on generalizing ms with
  | _ n ih =>
    rw [manageTokenLimitEv_eq]
    by_cases hb : count_tokens enc ms + r ≤ c
    · simp [hb]
    · simp only [hb, if_false]
      match ms with
      | [] => simp
      | [m] => simp
      | m0 :: m1 :: rest =>
          have := ih (m0 :: rest).length (by simp at hn ⊢; omega) (m0 :: rest) rfl
          simpa using this

/-- When the loop condition already holds, or at most one message remains,
the loop body never runs: no eviction and no change. -/
lemma manageEv_noop (enc : String → ℕ) (c r : ℤ) (ms : List Message)
    (h : count_tokens enc ms + r ≤ c ∨ ms.length ≤ 1) :
    manageTokenLimitEv enc c r ms = (ms, []) := by
  rw [manageTokenLimitEv_eq]
  by_cases hb : count_tokens enc ms + r ≤ c
  · simp [hb]
  · simp only [hb, if_false]
    match ms with
    | [] => rfl
    | [m] => rfl
    | m0 :: m1 :: rest => simp at h; omega

/-- The head of the list (index 0, the leading system message when present)
survives the loop. -/
lemma manageEv_head (enc : String → ℕ) (c r : ℤ) (ms : List Message) :
    (manageTokenLimitEv enc c r ms).1.head? = ms.head? := by
  generalize hn : ms.length = n
  induction n using Nat.strong_induction_on generalizing ms with
  | _ n ih =>
    rw [manageTokenLimitEv_eq]
    by_cases hb : count_tokens enc ms + r ≤ c
    · simp [hb]
    · simp only [hb, if_false]
      match ms with
      | [] => rfl
      | [m] => rfl
      | m0 :: m1 :: rest =>
          have := ih (m0 :: rest).length (by simp at hn ⊢; omega) (m0 :: rest) rfl
          simpa using this

/-- Every evicted message comes from the tail of the input (never index 0),
in order: the eviction list is a sublist of `ms.tail`. -/
lemma manageEv_evicted_sublist (enc : String → ℕ) (c r : ℤ) (ms : List Message) :
    (manageTokenLimitEv enc c r ms).2.Sublist ms.tail := by
  generalize hn : ms.length = n
  induction n using Nat.strong_induction_on generalizing ms with
  | _ n ih =>
    rw [manageTokenLimitEv_eq]
    by_cases hb : count_tokens enc ms + r ≤ c
    · simp [hb]
    · simp only [hb, if_false]
      match ms with
      | [] => simp
      | [m] => simp
      | m0 :: m1 :: rest =>
          have h := ih (m0 :: rest).length (by simp at hn ⊢; omega) (m0 :: rest) rfl
          simp only [List.tail_cons] at h ⊢
          exact List.Sublist.cons₂ m1 h

/-- Message conservation: every loop iteration moves exactly one message
from the session to the eviction list, so the loop terminates after at most
`ms.length` iterations. -/
lemma manageEv_length (enc : String → ℕ) (c r : ℤ) (ms : List Message) :
    (manageTokenLimitEv enc c r ms).1.length + (manageTokenLimitEv enc c r ms).2.length
      = ms.length := by
  generalize hn : ms.length = n
  induction n using Nat.strong_induction_on generalizing ms with
  | _ n ih =>
    rw [manageTokenLimitEv_eq]
    by_cases hb : count_tokens enc ms + r ≤ c
    · simp [hb, hn]
    · simp only [hb, if_false]
      match ms with
      | [] => simp at hn ⊢; omega
      | [m] => simp at hn ⊢; omega
      | m0 :: m1 :: rest =>
          have h := ih (m0 :: rest).length (by simp at hn ⊢; omega) (m0 :: rest) rfl
          simp only [List.length_cons] at h hn ⊢
          omega

/-! ## RateLimiter (rate_limiter.py) -/

lemma RLInv_refill {s : RateLimiter} (h : RLInv s) (now : ℚ) :
    RLInv (s.refill now) := by
  obtain ⟨h0, h1⟩ := h
  unfold RateLimiter.refill
  by_cases hr : (1 : ℚ) ≤ (now - s.last_refill) / s.period * (s.max_calls : ℚ)
  · have hfl : (1 : ℤ) ≤ ⌊(now - s.last_refill) / s.period * (s.max_calls : ℚ)⌋ := by
      rwa [Int.le_floor, Int.cast_one]
    constructor
    · simp only [hr, if_true]
      have : (0 : ℤ) ≤ s.max_calls := le_trans h0 h1
      simp only [le_min_iff]
      omega
    · simp only [hr, if_true]
      simp [min_le_left]
  · simpa [hr] using ⟨h0, h1⟩

lemma RLInv_acquireStep {s : RateLimiter} (h : RLInv s) (now : ℚ) :
    RLInv (s.acquireStep now).1 := by
  have hr := RLInv_refill h now
  unfold RateLimiter.acquireStep
  obtain ⟨h0, h1⟩ := hr
  by_cases ht : 1 ≤ (s.refill now).tokens
  · simp only [ht, if_true]
    refine ⟨?_, ?_⟩ <;> dsimp only <;> omega
  · simp only [ht, if_false]
    by_cases hz : (s.refill now).max_calls = 0 <;> simp [hz, RLInv] <;> omega

lemma RLInv_runAcquires {s : RateLimiter} (h : RLInv s) (ts : List ℚ) :
    RLInv (s.runAcquires ts) := by
  unfold RateLimiter.runAcquires
  induction ts generalizing s with
  | nil => simpa using h
  | cons t ts ih =>
      rw [List.foldl_cons]
      exact ih (RLInv_acquireStep h t)

lemma acquireStep_starved : RateLimiter.acquireStep rlStarved 0 = (rlStarved, .wait 1) := by
  simp [RateLimiter.acquireStep, RateLimiter.refill, rlStarved]

lemma acquireStep_starved_one :
    RateLimiter.acquireStep rlStarved 1 =
      ({ max_calls := 1, period := 1, tokens := 0, last_refill := 1 }, .acquired) := by
  simp [RateLimiter.acquireStep, RateLimiter.refill, rlStarved]

/-- With `n` failed attempts at time 0 followed by a successful attempt at
time 1, `acquire` succeeds with self-call depth `n + 1`: each failed
attempt adds one recursive `self.acquire()` frame (rate_limiter.py
line 53). -/
lemma acquireFrom_starved (n : ℕ) :
    RateLimiter.acquireFrom rlStarved (List.replicate n 0 ++ [1]) =
      some ({ max_calls := 1, period := 1, tokens := 0, last_refill := 1 }, n + 1) := by
  induction n with
  | zero =>
      simp only [List.replicate, List.nil_append, RateLimiter.acquireFrom,
        acquireStep_starved_one]
  | succ n ih =>
      rw [List.replicate_succ, List.cons_append]
      simp only [RateLimiter.acquireFrom, acquireStep_starved]
      rw [ih]
      rfl

/-! ## Retrying remote call (chatgpt_handler.py lines 213-237) -/

/-! ## Claim theorems -/

/-- Claim C1, counterexample: with tokenizer `String.length`,
`max_context_tokens = 10` and `max_response_tokens = 0`, running
`manage_token_limit` on the two-message session `[mSys, mUser]` (a leading
system message followed by the just-appended user message) is over budget
and evicts `mUser` — which is the most recently appended message of the
session — contradicting "the evicted message is never the most recently
appended message". -/
theorem manage_evicts_latest_message :
    (manageTokenLimitEv String.length 10 0 [mSys, mUser]).2 = [mUser] ∧
      [mSys, mUser].getLast? = some mUser ∧
      mSys.role = "system" ∧
      ¬ (count_tokens String.length [mSys, mUser] + 0 ≤ 10) := by
  refine ⟨by decide, by decide, by decide, by decide⟩

/-- Claim C1 (amended): whenever `manage_token_limit` evicts a message
during its loop, the evicted message is never the leading system message
(the message at index 0 always survives, and every evicted message comes
from the tail of the session, in order), and the procedure terminates,
each iteration moving exactly one message out of the session; the most
recently appended message, however, can be evicted (exactly when the
session is down to two messages while still over budget). -/
theorem manage_eviction_safety (enc : String → ℕ) (c r : ℤ) (ms : List Message) :
    (manageTokenLimitEv enc c r ms).1.head? = ms.head? ∧
      (manageTokenLimitEv enc c r ms).2.Sublist ms.tail ∧
      (manageTokenLimitEv enc c r ms).1.length + (manageTokenLimitEv enc c r ms).2.length
        = ms.length :=
  ⟨manageEv_head enc c r ms, manageEv_evicted_sublist enc c r ms,
    manageEv_length enc c r ms⟩

/-- Claim C2, counterexample: on a concrete successful send ("hi", reply
"ok"), the order of steps performed by `send_message` is
acquire → append user → trim → call → append assistant, which differs from
the order claimed by the spec (`specSendOrder`: append user → trim →
acquire → call → append assistant): the code acquires the rate-limiter
token before appending and trimming. -/
theorem send_message_order_ne_spec :
    (send_message String.length hSt0 "hi" (.success "ok")).2.2 =
        [SendEvent.rlAcquire, .appendUser, .trimBudget, .apiCall, .appendAssistant] ∧
      [SendEvent.rlAcquire, .appendUser, .trimBudget, .apiCall, .appendAssistant]
        ≠ specSendOrder := by
  refine ⟨by decide, by decide⟩

/-- Claim C2 (amended): for every non-blank outgoing message,
`send_message` performs its steps in this order: first block on
`RateLimiter.acquire()`, then append the user message to the session, then
trim the session to fit the budget (`manage_token_limit`), then invoke the
remote call with retries, and append the assistant reply only on
success. -/
theorem send_message_actual_order (enc : String → ℕ) (st : ChatGPTHandler)
    (user_input : String) (api : ApiOutcome) (h : ¬ pyStrip user_input = "") :
    (send_message enc st user_input api).2.2 =
      [SendEvent.rlAcquire, .appendUser, .trimBudget, .apiCall] ++
        (match api with
         | .success _ => [SendEvent.appendAssistant]
         | _ => []) ∧
      (send_message enc st user_input api).1.messages =
        manage_token_limit enc st.max_context_tokens st.max_response_tokens
            (st.messages ++ [{ role := "user", content := user_input }]) ++
          (match api with
           | .success answer => [{ role := "assistant", content := pyStrip answer }]
           | _ => []) := by
  unfold send_message manage_token_limit
  simp only [h, if_false]
  cases api <;> simp

/-- Witness for C2's amended theorem at the concrete send of
`send_message_order_ne_spec`. -/
theorem send_message_actual_order_witness :
    ¬ pyStrip "hi" = "" ∧
      (send_message String.length hSt0 "hi" (.success "ok")).2.2 =
        [SendEvent.rlAcquire, .appendUser, .trimBudget, .apiCall] ++
          [SendEvent.appendAssistant] :=
  ⟨by decide, (send_message_actual_order String.length hSt0 "hi" (.success "ok")
    (by decide)).1⟩

/-- Claim C3, counterexample: with tokenizer `String.length`,
`max_context_tokens = 10` and `max_response_tokens = 0`, a session holding
the single message `mSys` costs 13 tokens; `manage_token_limit` leaves it
unchanged (only one message remains, the "cannot remove more messages"
warning branch) and returns with the budget inequality still violated. -/
theorem manage_budget_unenforced :
    manage_token_limit String.length 10 0 [mSys] = [mSys] ∧
      ¬ (count_tokens String.length (manage_token_limit String.length 10 0 [mSys]) + 0 ≤ 10) := by
  refine ⟨by decide, by decide⟩

/-- Claim C3 (amended): after `manage_token_limit` returns, either
`count_tokens(session.messages) + max_response_tokens ≤
max_context_tokens` holds, or at most one message remains in the session
(the loop stopped on its hard stop condition and the call proceeds over
budget with a logged warning). -/
theorem manage_budget_or_singleton (enc : String → ℕ) (c r : ℤ) (ms : List Message) :
    count_tokens enc (manage_token_limit enc c r ms) + r ≤ c ∨
      (manage_token_limit enc c r ms).length ≤ 1 :=
  manage_post enc c r ms

/-- Claim C4 (confirmed): for a `RateLimiter` constructed with a
non-negative `max_calls` (the capacity), the bucket satisfies
`0 ≤ tokens ≤ max_calls` after construction, after every refill, after
every decrement (one full `acquire` attempt), and after every sequence of
acquire attempts. -/
theorem rateLimiter_tokens_invariant (max_calls : ℤ) (period t0 : ℚ)
    (h : 0 ≤ max_calls) :
    RLInv (RateLimiter.init max_calls period t0) ∧
      (∀ (s : RateLimiter) (now : ℚ), RLInv s → RLInv (s.refill now)) ∧
      (∀ (s : RateLimiter) (now : ℚ), RLInv s → RLInv (s.acquireStep now).1) ∧
      (∀ ts : List ℚ,
        RLInv (RateLimiter.runAcquires (RateLimiter.init max_calls period t0) ts)) := by
  have hinit : RLInv (RateLimiter.init max_calls period t0) := ⟨h, le_refl _⟩
  exact ⟨hinit, fun s now hs => RLInv_refill hs now,
    fun s now hs => RLInv_acquireStep hs now,
    fun ts => RLInv_runAcquires hinit ts⟩

/-- Witness for C4 at `max_calls = 60`, `period = 60`, construction time 0,
with three acquire attempts. -/
theorem rateLimiter_tokens_invariant_witness :
    (0 : ℤ) ≤ 60 ∧
      RLInv (RateLimiter.runAcquires (RateLimiter.init 60 60 0) [0, 0, 30]) :=
  ⟨by norm_num, (rateLimiter_tokens_invariant 60 60 0 (by norm_num)).2.2.2 [0, 0, 30]⟩

/-- Claim C5, counterexample: the self-call depth of `acquire` is not
bounded by any constant — for every candidate bound `c`, the starved run
with `c` failed attempts at time 0 followed by a success at time 1 reaches
depth `c + 1` (each failed attempt sleeps and then recursively re-invokes
`self.acquire()`, rate_limiter.py line 53). -/
theorem acquire_call_depth_unbounded :
    ¬ ∃ c : ℕ, ∀ (s : RateLimiter) (ts : List ℚ) (r : RateLimiter × ℕ),
        s.acquireFrom ts = some r → r.2 ≤ c := by
  rintro ⟨c, h⟩
  have hc := h rlStarved (List.replicate c 0 ++ [1]) _ (acquireFrom_starved c)
  simp at hc

/-- Claim C5 (amended): `RateLimiter.acquire` waits for a free token by
recursively re-invoking itself after sleeping, not by an iterative loop:
after `n` consecutive failed acquisition attempts the self-call depth is
`n + 1`, growing without bound in the number of failures. -/
theorem acquire_depth_linear_in_failures (n : ℕ) :
    RateLimiter.acquireFrom rlStarved (List.replicate n 0 ++ [1]) =
      some ({ max_calls := 1, period := 1, tokens := 0, last_refill := 1 }, n + 1) :=
  acquireFrom_starved n

/-- Claim C6 (code bug): `RateLimiter.__init__` performs no validation, so
constructing with `max_calls = 0` succeeds and produces an ordinary state;
when `acquire` then finds no token available, the expression
`self.period / self.max_calls` (rate_limiter.py line 48) divides by zero
(`ZeroDivisionError`), modelled by the `divByZero` outcome. -/
theorem rateLimiter_zero_max_calls :
    RateLimiter.init 0 60 0 =
        { max_calls := 0, period := 60, tokens := 0, last_refill := 0 } ∧
      RateLimiter.acquireStep (RateLimiter.init 0 60 0) 0 =
        (RateLimiter.init 0 60 0, .divByZero) := by
  constructor
  · rfl
  · simp [RateLimiter.acquireStep, RateLimiter.refill, RateLimiter.init]

/-- Claim C7 (confirmed): `manage_token_limit` is idempotent — running it
again immediately on its own result evicts nothing and leaves the message
list unchanged. -/
theorem manage_token_limit_idempotent (enc : String → ℕ) (c r : ℤ) (ms : List Message) :
    manageTokenLimitEv enc c r (manage_token_limit enc c r ms) =
        (manage_token_limit enc c r ms, []) ∧
      manage_token_limit enc c r (manage_token_limit enc c r ms) =
        manage_token_limit enc c r ms := by
  have h := manageEv_noop enc c r _ (manage_post enc c r ms)
  refine ⟨h, ?_⟩
  unfold manage_token_limit at h ⊢
  rw [h]

/-- Claim C8 (confirmed): for any deterministic tokenizer, `count_tokens`
is a pure function of the message list (equal lists give equal counts) and
is monotonically non-decreasing under appending a message. -/
theorem count_tokens_det_monotone (enc : String → ℕ) :
    (∀ ms1 ms2 : List Message, ms1 = ms2 →
        count_tokens enc ms1 = count_tokens enc ms2) ∧
      ∀ (ms : List Message) (m : Message),
        count_tokens enc ms ≤ count_tokens enc (ms ++ [m]) := by
  refine ⟨fun ms1 ms2 hmm => by rw [hmm], fun ms m => ?_⟩
  rw [count_tokens_append_singleton]
  have := msgCost_nonneg enc m
  omega

/-- Witness for C8 at the tokenizer `String.length` and concrete lists. -/
theorem count_tokens_det_monotone_witness :
    count_tokens String.length [mSys] = count_tokens String.length [mSys] ∧
      count_tokens String.length [] ≤ count_tokens String.length ([] ++ [mUser]) :=
  ⟨(count_tokens_det_monotone String.length).1 [mSys] [mSys] rfl,
    (count_tokens_det_monotone String.length).2 [] mUser⟩

/-- Claim C9 (confirmed): when the wrapped remote call raises a
non-retryable error (authentication failure, malformed request, or any
error outside the retryable tuple) on its first invocation, the retry
wrapper re-raises it immediately after exactly 1 invocation, for every
`maxAttempts ≥ 1` — in particular for the source's `stop_after_attempt(5)`
policy in `call_openai_api`. -/
theorem call_openai_api_fatal_no_retry (outcomes : ℕ → Except OpenAIErr String)
    (e : OpenAIErr) (maxAttempts : ℕ) (h1 : 1 ≤ maxAttempts)
    (h2 : outcomes 0 = .error e) (h3 : isRetryable e = false) :
    callWithRetryGo outcomes maxAttempts 0 = (.error e, 1) ∧
      call_openai_api outcomes = (.error e, 1) := by
  have key : ∀ n : ℕ, callWithRetryGo outcomes (n + 1) 0 = (.error e, 1) := by
    intro n
    simp [callWithRetryGo, h2, h3]
  obtain ⟨n, rfl⟩ : ∃ n, maxAttempts = n + 1 := ⟨maxAttempts - 1, by omega⟩
  exact ⟨key n, key 4⟩

/-- Witness for C9: an authentication failure on the first invocation is
raised after exactly one call under the source's 5-attempt policy. -/
theorem call_openai_api_fatal_no_retry_witness :
    1 ≤ 5 ∧ call_openai_api (fun _ => .error .authenticationError) =
      (.error .authenticationError, 1) :=
  ⟨by norm_num,
    (call_openai_api_fatal_no_retry (fun _ => .error .authenticationError)
      .authenticationError 5 (by norm_num) rfl rfl).2⟩

/-- Claim C10 (confirmed): for every user input that strips to the empty
string, `send_message` returns the fixed warning string and does nothing
else — the handler state (including the session message list) is
unchanged, no rate-limiter acquisition happens, and the remote call is not
invoked. -/
theorem send_message_blank_input (enc : String → ℕ) (st : ChatGPTHandler)
    (user_input : String) (api : ApiOutcome) (h : pyStrip user_input = "") :
    send_message enc st user_input api = (st, "⚠️ Please provide a valid input.", []) ∧
      (send_message enc st user_input api).1.messages = st.messages ∧
      SendEvent.rlAcquire ∉ (send_message enc st user_input api).2.2 ∧
      SendEvent.apiCall ∉ (send_message enc st user_input api).2.2 := by
  unfold send_message
  simp [h]

/-- Witness for C10 at the whitespace-only input `"  "`. -/
theorem send_message_blank_input_witness :
    pyStrip "  " = "" ∧
      send_message String.length hSt0 "  " (.success "ok") =
        (hSt0, "⚠️ Please provide a valid input.", []) :=
  ⟨by decide,
    (send_message_blank_input String.length hSt0 "  " (.success "ok") (by decide)).1⟩
